import Mathlib

/-!
Shallow embedding of the triage intake service (`src/app.py`, `src/tasks.py`).

The service is a single Flask endpoint `POST /send_message` that
1. parses the request body as JSON and extracts the `message` field,
2. calls the Gemini API (`call_llm_api`) to classify the message into a
   triage record (`area_problema`, `fatos_chave`, `urgencia`),
3. persists the record as a `Caso` row (`persist_case_to_sql`), and
4. builds the HTTP response.

Python values decoded by `json.loads` are modelled by `JsonVal`; the decoded
`null` is the same Python object as `None`, so `JsonVal.null` plays both
roles.  The two external effects — the Gemini call and the MySQL commit —
are modelled by explicit parameters (`LlmOutcome`, an error flag on the
store) so every function is total and executable.
-/

namespace TriageApp

/-- Values produced by Python `json.loads`, also standing for the Python
values the handler manipulates (`JsonVal.null` is Python `None`).  JSON
numbers are modelled as integers; no code path of this app inspects a
numeric payload. -/
inductive JsonVal where
  | null : JsonVal
  | bool : Bool → JsonVal
  | num : Int → JsonVal
  | str : String → JsonVal
  | arr : List JsonVal → JsonVal
  | obj : List (String × JsonVal) → JsonVal

/-- Python truthiness (`if x:`) of a decoded JSON value: `None`, `False`,
`0`, the empty string, the empty list and the empty dict are falsy. -/
def truthy : JsonVal → Bool
  | .null => false
  | .bool b => b
  | .num n => n != 0
  | .str s => s != ""
  | .arr l => !l.isEmpty
  | .obj l => !l.isEmpty

/-- Python `dict.get(k, d)` on a decoded JSON object (dict keys are unique,
so first match suffices). -/
def dict_getD : List (String × JsonVal) → String → JsonVal → JsonVal
  | [], _, d => d
  | (k2, v) :: rest, k, d => if k2 = k then v else dict_getD rest k d

/-- Python `dict.get(k)`: the default is `None`. -/
def dict_get (kvs : List (String × JsonVal)) (k : String) : JsonVal :=
  dict_getD kvs k JsonVal.null

mutual

/-- Python `repr` of a decoded JSON value (quote-escaping inside string
payloads is elided; no claim exercises it). -/
def pyRepr : JsonVal → String
  | .null => "None"
  | .bool true => "True"
  | .bool false => "False"
  | .num n => toString n
  | .str s => "\x27" ++ s ++ "\x27"
  | .arr l => "[" ++ pyReprArr l ++ "]"
  | .obj l => "\x7b" ++ pyReprObj l ++ "\x7d"

/-- Python `repr` of a decoded list, comma separated. -/
def pyReprArr : List JsonVal → String
  | [] => ""
  | [v] => pyRepr v
  | v :: rest => pyRepr v ++ ", " ++ pyReprArr rest

/-- Python `repr` of a decoded dict body, comma separated `k: v` pairs. -/
def pyReprObj : List (String × JsonVal) → String
  | [] => ""
  | [(k, v)] => "\x27" ++ k ++ "\x27: " ++ pyRepr v
  | (k, v) :: rest => "\x27" ++ k ++ "\x27: " ++ pyRepr v ++ ", " ++ pyReprObj rest

end

/-- Python `str()` as used by f-string interpolation: identity on strings,
`repr` on everything else. -/
def pyStr : JsonVal → String
  | .str s => s
  | v => pyRepr v

/-- Outcome of the external Gemini call inside `call_llm_api`, once the API
key check has passed: the SDK call raised (network/API error), the response
text was not valid JSON (`json.loads` raised), or `json.loads` returned a
value.  Note the code applies no schema validation to the parsed value. -/
inductive LlmOutcome where
  | raised : LlmOutcome
  | badJson : LlmOutcome
  | parsed : JsonVal → LlmOutcome

/-- Model of `call_llm_api` (src/app.py): inside a `try` that catches every
exception and returns `None` (our `JsonVal.null`), it raises `ValueError`
when `GEMINI_API_KEY` is unset, calls Gemini, and returns
`json.loads(response.text)` unvalidated. -/
def call_llm_api (gemini_api_key_set : Bool) (outcome : LlmOutcome) : JsonVal :=
  if gemini_api_key_set = false then
    JsonVal.null
  else
    match outcome with
    | .raised => JsonVal.null
    | .badJson => JsonVal.null
    | .parsed v => v

/-- A row of the `caso` table (src/app.py class `Caso`): auto-increment
`id`, the three triage columns (all `nullable=False`), a server-assigned
`timestamp`, and `status` defaulting to `PENDENTE_ESPECIALISTA`. -/
structure Caso where
  id : Nat
  area_problema : JsonVal
  fatos_chave : JsonVal
  urgencia : JsonVal
  timestamp : Nat
  status : String

/-- MySQL database state: the next auto-increment id, the current clock
(for the `timestamp` default), and the committed rows. -/
structure DBState where
  nextId : Nat
  now : Nat
  rows : List Caso

/-- Is this decoded value Python `None` (hence SQL `NULL` when bound to a
column)? -/
def is_null : JsonVal → Bool
  | .null => true
  | _ => false

/-- Model of `persist_case_to_sql` (src/app.py): builds a `Caso` from
`case_data.get(...)` for the three fields, adds and commits it.  Any
`SQLAlchemyError` — an external failure (`external_error`), or the
`IntegrityError` MySQL raises when a `nullable=False` column receives
`NULL` — is caught: the session is rolled back (state unchanged) and the
function returns `False`.  On success it returns `True` and the committed
row carries the fresh auto-increment id and the default status. -/
def persist_case_to_sql (external_error : Bool)
    (case_data : List (String × JsonVal)) (st : DBState) : Bool × DBState :=
  let area := dict_get case_data "area_problema"
  let fatos := dict_get case_data "fatos_chave"
  let urg := dict_get case_data "urgencia"
  if external_error || is_null area || is_null fatos || is_null urg then
    (false, st)
  else
    (true, ⟨st.nextId + 1, st.now,
      st.rows ++ [⟨st.nextId, area, fatos, urg, st.now, "PENDENTE_ESPECIALISTA"⟩]⟩)

/-- Read a committed `Caso` back by primary key. -/
def read_case (st : DBState) (case_id : Nat) : Option Caso :=
  st.rows.find? (fun r => r.id == case_id)

/-- The HTTP outcome of the handler: a `jsonify(...), code` pair, or an
exception escaping the handler (Flask then produces a generic 500 with no
JSON body built by this code). -/
inductive HttpResult where
  | json : Nat → List (String × JsonVal) → HttpResult
  | uncaught : HttpResult

/-- Result of one request: the HTTP outcome, how many times the classifier
and the store were invoked, and the resulting store state. -/
structure PipelineResult (σ : Type) where
  resp : HttpResult
  llmCalls : Nat
  storeCalls : Nat
  state : σ

/-- Error body of the 400 returned when `request.get_json()` raises or
`data.get` fails (body not a JSON object). -/
def invalid_json_error : String := "Formato JSON inválido"

/-- Error body of the 400 returned when the `message` field is falsy. -/
def missing_message_error : String := "O campo \x27message\x27 está ausente"

/-- Error body of the 500 returned when classification fails. -/
def triage_failure_error : String :=
  "Houve uma falha na triagem do sistema. Por favor, tente novamente mais tarde."

/-- Error body of the 500 returned when persistence fails. -/
def storage_failure_error : String :=
  "Falha ao registrar e direcionar o caso no banco de dados."

/-- The confirmation text built on success; it interpolates `area_buscada`
with Python `str()`. -/
def success_message (area_buscada : JsonVal) : String :=
  "✅ Triagem Concluída! Sua solicitação na área de **" ++ pyStr area_buscada ++
    "** foi registrada e **direcionada para a fila de atendimento de um especialista**. " ++
    "Você será contatado(a) por ele(a) em breve."

/-- Model of `process_chat_message` (src/app.py), the `POST /send_message` handler.
`body` is `none` when `request.get_json()` raises (invalid JSON); a
non-object body makes `data.get` raise `AttributeError`, caught by the same
`try`.  `classify` abstracts `call_llm_api` and `store` abstracts
`persist_case_to_sql` (over an arbitrary store state `σ`) so the theorems
can instantiate them with the real functions or with stubs.  The handler:
400 when the body is bad, 400 when `message` is falsy, then classifies;
`if processed_data:` is a truthiness test, so a falsy classifier result
gives the 500 triage failure; a truthy non-dict result makes
`processed_data.get` raise outside any `try`; otherwise it persists
(500 storage failure when the store reports `False`) and answers 200. -/
def process_chat_message {σ : Type} (classify : JsonVal → JsonVal)
    (store : List (String × JsonVal) → σ → Bool × σ)
    (body : Option JsonVal) (st : σ) : PipelineResult σ :=
  match body with
  | none => ⟨.json 400 [("error", .str invalid_json_error)], 0, 0, st⟩
  | some (.obj data) =>
    let user_message := dict_get data "message"
    if truthy user_message = false then
      ⟨.json 400 [("error", .str missing_message_error)], 0, 0, st⟩
    else
      let processed_data := classify user_message
      if truthy processed_data then
        match processed_data with
        | .obj pkvs =>
          let area_buscada := dict_getD pkvs "area_problema" (.str "Não Classificado")
          match store pkvs st with
          | (true, st2) =>
            ⟨.json 200 [("status", .str "success"),
                ("response_text", .str (success_message area_buscada)),
                ("area_classified", area_buscada),
                ("urgency", dict_get pkvs "urgencia")], 1, 1, st2⟩
          | (false, st2) =>
            ⟨.json 500 [("error", .str storage_failure_error)], 1, 1, st2⟩
        | _ => ⟨.uncaught, 1, 0, st⟩
      else
        ⟨.json 500 [("error", .str triage_failure_error)], 1, 0, st⟩
  | some _ => ⟨.json 400 [("error", .str invalid_json_error)], 0, 0, st⟩

/-- Model of `process_new_case_job` (src/tasks.py): the queue worker stub only
formats log lines from the record; it performs no state change. -/
def process_new_case_job (case_data : List (String × JsonVal)) : List String :=
  ["--- INICIANDO PROCESSAMENTO DO CASO PELO WORKER ---",
   "Área Classificada: " ++ pyStr (dict_get case_data "area_problema"),
   "Resumo do Caso: " ++ pyStr (dict_get case_data "fatos_chave"),
   "--- CASO PROCESSADO E ENVIADO PARA ATENDIMENTO ---"]

/-- A fresh database: MySQL auto-increment starts at 1, no rows. -/
def st0 : DBState := ⟨1, 0, []⟩

/-- A well-formed TriageRecord as a decoded JSON object (concrete test
data). -/
def rec_completo : List (String × JsonVal) :=
  [("area_problema", JsonVal.str "Direito Civil"),
   ("fatos_chave", JsonVal.str "Locador retém o depósito."),
   ("urgencia", JsonVal.str "Média")]

/-- A schema-violating classifier output: `area_problema` is missing
(concrete test data). -/
def rec_incompleto : List (String × JsonVal) :=
  [("fatos_chave", JsonVal.str "Locador retém o depósito."),
   ("urgencia", JsonVal.str "Alta")]

/-! ## Helper lemmas -/

/-- A lookup that found something other than the Python default is
insensitive to the default. -/
theorem dict_getD_eq_of_ne_null (k : String) (v d : JsonVal)
    (hv : v ≠ JsonVal.null) :
    ∀ kvs : List (String × JsonVal), dict_get kvs k = v → dict_getD kvs k d = v := by
  intro kvs
  induction kvs with
  | nil =>
    intro h
    exact absurd h.symm hv
  | cons kv rest ih =>
    obtain ⟨k2, w⟩ := kv
    intro h
    simp only [dict_get, dict_getD] at h ⊢
    by_cases hk : k2 = k
    · simpa [hk] using h
    · simp only [hk, if_false] at h ⊢
      exact ih h

/-- `List.find?` skips a prefix on which the predicate is everywhere
false. -/
theorem find?_append_of_forall_false {α : Type} (p : α → Bool) (l1 l2 : List α)
    (h : ∀ a ∈ l1, p a = false) :
    List.find? p (l1 ++ l2) = List.find? p l2 := by
  induction l1 with
  | nil => rfl
  | cons a rest ih =>
    rw [List.cons_append, List.find?_cons_of_neg]
    · exact ih fun b hb => h b (List.mem_cons_of_mem a hb)
    · simp [h a (List.mem_cons_self a rest)]

/-! ## Claim theorems -/

/-- C9: when the request body is not valid JSON (`request.get_json()`
raises), the handler answers HTTP 400 with the invalid-JSON error and
invokes neither the classifier nor the store, leaving the store state
untouched. -/
theorem invalid_json_returns_400 {σ : Type} (classify : JsonVal → JsonVal)
    (store : List (String × JsonVal) → σ → Bool × σ) (st : σ) :
    process_chat_message classify store none st =
      ⟨HttpResult.json 400 [("error", JsonVal.str invalid_json_error)], 0, 0, st⟩ := rfl

/-- C4: when the JSON body's `message` field is missing (so `data.get`
yields `None`) or is the empty string, the handler answers HTTP 400 with
the message-missing error and invokes neither the classifier nor the
store. -/
theorem missing_message_returns_400 {σ : Type} (classify : JsonVal → JsonVal)
    (store : List (String × JsonVal) → σ → Bool × σ) (st : σ)
    (data : List (String × JsonVal))
    (h : dict_get data "message" = JsonVal.null ∨
         dict_get data "message" = JsonVal.str "") :
    process_chat_message classify store (some (JsonVal.obj data)) st =
      ⟨HttpResult.json 400 [("error", JsonVal.str missing_message_error)], 0, 0, st⟩ := by
  have ht : truthy (dict_get data "message") = false := by
    rcases h with h | h <;> rw [h] <;> rfl
  simp [process_chat_message, ht]

/-- C4 witness: a concrete body without a `message` key is rejected with
400 and zero classifier/store calls. -/
theorem missing_message_returns_400_witness :
    process_chat_message (fun _ => JsonVal.null) (fun _ (s : Unit) => (true, s))
        (some (JsonVal.obj [("other", JsonVal.str "x")])) () =
      ⟨HttpResult.json 400 [("error", JsonVal.str missing_message_error)], 0, 0, ()⟩ :=
  missing_message_returns_400 _ _ _ _ (Or.inl rfl)

/-- C10: a `message` field present but bound to any of the falsy JSON
values — empty string, null, false, 0, empty array — is handled exactly
like an absent field: the same 400 message-missing response, because the
code tests `if not user_message`, i.e. truthiness, not key presence. -/
theorem falsy_message_same_as_missing {σ : Type} (classify : JsonVal → JsonVal)
    (store : List (String × JsonVal) → σ → Bool × σ) (st : σ)
    (data : List (String × JsonVal)) (v : JsonVal)
    (hv : dict_get data "message" = v)
    (hfalsy : v = JsonVal.str "" ∨ v = JsonVal.null ∨ v = JsonVal.bool false ∨
              v = JsonVal.num 0 ∨ v = JsonVal.arr []) :
    process_chat_message classify store (some (JsonVal.obj data)) st =
      process_chat_message classify store (some (JsonVal.obj [])) st ∧
    (process_chat_message classify store (some (JsonVal.obj [])) st).resp =
      HttpResult.json 400 [("error", JsonVal.str missing_message_error)] := by
  have ht : truthy (dict_get data "message") = false := by
    rw [hv]; rcases hfalsy with h | h | h | h | h <;> subst h <;> rfl
  have hL : process_chat_message classify store (some (JsonVal.obj data)) st =
      ⟨HttpResult.json 400 [("error", JsonVal.str missing_message_error)], 0, 0, st⟩ := by
    simp [process_chat_message, ht]
  have hR : process_chat_message classify store (some (JsonVal.obj [])) st =
      ⟨HttpResult.json 400 [("error", JsonVal.str missing_message_error)], 0, 0, st⟩ := rfl
  exact ⟨hL.trans hR.symm, by rw [hR]⟩

/-- C10 witness: `message: null` draws the same 400 as a missing key. -/
theorem falsy_message_same_as_missing_witness :
    process_chat_message (fun _ => JsonVal.null) (fun _ (s : Unit) => (true, s))
        (some (JsonVal.obj [("message", JsonVal.null)])) () =
      process_chat_message (fun _ => JsonVal.null) (fun _ (s : Unit) => (true, s))
        (some (JsonVal.obj [])) () ∧
    (process_chat_message (fun _ => JsonVal.null) (fun _ (s : Unit) => (true, s))
        (some (JsonVal.obj [])) ()).resp =
      HttpResult.json 400 [("error", JsonVal.str missing_message_error)] :=
  falsy_message_same_as_missing _ _ _ _ _ rfl (Or.inr (Or.inl rfl))

/-- C3: for a non-empty message, when the classifier returns no record
(Python `None`), the handler answers HTTP 500 with the triage-failure
error, the store is never invoked, and the store state is unchanged. -/
theorem triage_failure_skips_store {σ : Type} (classify : JsonVal → JsonVal)
    (store : List (String × JsonVal) → σ → Bool × σ) (st : σ)
    (data : List (String × JsonVal)) (msg : String)
    (hmsg : dict_get data "message" = JsonVal.str msg) (hne : msg ≠ "")
    (hc : classify (JsonVal.str msg) = JsonVal.null) :
    process_chat_message classify store (some (JsonVal.obj data)) st =
      ⟨HttpResult.json 500 [("error", JsonVal.str triage_failure_error)], 1, 0, st⟩ := by
  simp [process_chat_message, hmsg, hc, truthy, hne]

/-- C3 witness: a concrete message with a classifier stub that fails gives
the 500 triage error and zero store calls. -/
theorem triage_failure_skips_store_witness :
    process_chat_message (fun _ => JsonVal.null) (fun _ (s : Unit) => (true, s))
        (some (JsonVal.obj [("message", JsonVal.str "Preciso de ajuda")])) () =
      ⟨HttpResult.json 500 [("error", JsonVal.str triage_failure_error)], 1, 0, ()⟩ :=
  triage_failure_skips_store _ _ _ _ "Preciso de ajuda" rfl (by decide) rfl

/-- C2: for a non-empty message, a classifier result carrying the three
string fields of a well-formed TriageRecord, and a store reporting success,
the handler answers HTTP 200 with status `success`, `area_classified`
equal to the record's `area_problema`, `urgency` equal to the record's
`urgencia`, and a `response_text` containing the `area_problema` string;
classifier and store are each invoked exactly once. -/
theorem send_message_success {σ : Type} (classify : JsonVal → JsonVal)
    (store : List (String × JsonVal) → σ → Bool × σ) (st : σ)
    (data pkvs : List (String × JsonVal)) (msg area fatos urg : String)
    (hmsg : dict_get data "message" = JsonVal.str msg) (hne : msg ≠ "")
    (hc : classify (JsonVal.str msg) = JsonVal.obj pkvs)
    (ha : dict_get pkvs "area_problema" = JsonVal.str area)
    (hf : dict_get pkvs "fatos_chave" = JsonVal.str fatos)
    (hu : dict_get pkvs "urgencia" = JsonVal.str urg)
    (st2 : σ) (hs : store pkvs st = (true, st2)) :
    process_chat_message classify store (some (JsonVal.obj data)) st =
      ⟨HttpResult.json 200 [("status", JsonVal.str "success"),
          ("response_text", JsonVal.str (success_message (JsonVal.str area))),
          ("area_classified", JsonVal.str area),
          ("urgency", JsonVal.str urg)], 1, 1, st2⟩ ∧
    ∃ p q : String, success_message (JsonVal.str area) = p ++ area ++ q := by
  constructor
  · have hpk : pkvs ≠ [] := by
      intro h; subst h; simp [dict_get, dict_getD] at ha
    have haD : dict_getD pkvs "area_problema" (JsonVal.str "Não Classificado") =
        JsonVal.str area :=
      dict_getD_eq_of_ne_null "area_problema" (JsonVal.str area) _ (by intro h; cases h) pkvs ha
    simp [process_chat_message, hmsg, hc, hpk, haD, hu, hs, truthy, hne]
  · exact ⟨"✅ Triagem Concluída! Sua solicitação na área de **",
      "** foi registrada e **direcionada para a fila de atendimento de um especialista**. " ++
        "Você será contatado(a) por ele(a) em breve.",
      by simp [success_message, pyStr, String.append_assoc]⟩

/-- C2 witness: the spec's concrete scenario, with a stub classifier and a
succeeding stub store. -/
theorem send_message_success_witness :
    process_chat_message
        (fun _ => JsonVal.obj [("area_problema", JsonVal.str "Direito Civil"),
          ("fatos_chave", JsonVal.str "Locador retém o depósito."),
          ("urgencia", JsonVal.str "Média")])
        (fun _ (s : Unit) => (true, s))
        (some (JsonVal.obj [("message", JsonVal.str "Meu locador reteve o meu depósito")])) () =
      ⟨HttpResult.json 200 [("status", JsonVal.str "success"),
          ("response_text", JsonVal.str (success_message (JsonVal.str "Direito Civil"))),
          ("area_classified", JsonVal.str "Direito Civil"),
          ("urgency", JsonVal.str "Média")], 1, 1, ()⟩ ∧
    ∃ p q : String, success_message (JsonVal.str "Direito Civil") = p ++ "Direito Civil" ++ q :=
  send_message_success
    (fun _ => JsonVal.obj [("area_problema", JsonVal.str "Direito Civil"),
      ("fatos_chave", JsonVal.str "Locador retém o depósito."),
      ("urgencia", JsonVal.str "Média")])
    (fun _ (s : Unit) => (true, s)) ()
    [("message", JsonVal.str "Meu locador reteve o meu depósito")]
    [("area_problema", JsonVal.str "Direito Civil"),
      ("fatos_chave", JsonVal.str "Locador retém o depósito."),
      ("urgencia", JsonVal.str "Média")]
    "Meu locador reteve o meu depósito" "Direito Civil"
    "Locador retém o depósito." "Média" rfl (by decide) rfl rfl rfl rfl () rfl

/-- C5: for a non-empty message and a well-formed classification, when the
store reports failure the handler answers HTTP 500 with the
storage-failure error, with the classifier invoked exactly once and the
store invoked exactly once — no retries. -/
theorem storage_failure_returns_500 {σ : Type} (classify : JsonVal → JsonVal)
    (store : List (String × JsonVal) → σ → Bool × σ) (st : σ)
    (data pkvs : List (String × JsonVal)) (msg area fatos urg : String)
    (hmsg : dict_get data "message" = JsonVal.str msg) (hne : msg ≠ "")
    (hc : classify (JsonVal.str msg) = JsonVal.obj pkvs)
    (ha : dict_get pkvs "area_problema" = JsonVal.str area)
    (hf : dict_get pkvs "fatos_chave" = JsonVal.str fatos)
    (hu : dict_get pkvs "urgencia" = JsonVal.str urg)
    (st2 : σ) (hs : store pkvs st = (false, st2)) :
    process_chat_message classify store (some (JsonVal.obj data)) st =
      ⟨HttpResult.json 500 [("error", JsonVal.str storage_failure_error)], 1, 1, st2⟩ := by
  have hpk : pkvs ≠ [] := by
    intro h; subst h; simp [dict_get, dict_getD] at ha
  simp [process_chat_message, hmsg, hc, hpk, hs, truthy, hne]

/-- C5 witness: concrete pipeline with a failing stub store; one classifier
call, one store call, HTTP 500. -/
theorem storage_failure_returns_500_witness :
    process_chat_message
        (fun _ => JsonVal.obj [("area_problema", JsonVal.str "Saúde"),
          ("fatos_chave", JsonVal.str "Paciente sem medicação."),
          ("urgencia", JsonVal.str "Alta")])
        (fun _ (s : Unit) => (false, s))
        (some (JsonVal.obj [("message", JsonVal.str "Estou sem meus remédios")])) () =
      ⟨HttpResult.json 500 [("error", JsonVal.str storage_failure_error)], 1, 1, ()⟩ :=
  storage_failure_returns_500
    (fun _ => JsonVal.obj [("area_problema", JsonVal.str "Saúde"),
      ("fatos_chave", JsonVal.str "Paciente sem medicação."),
      ("urgencia", JsonVal.str "Alta")])
    (fun _ (s : Unit) => (false, s)) ()
    [("message", JsonVal.str "Estou sem meus remédios")]
    [("area_problema", JsonVal.str "Saúde"),
      ("fatos_chave", JsonVal.str "Paciente sem medicação."),
      ("urgencia", JsonVal.str "Alta")]
    "Estou sem meus remédios" "Saúde"
    "Paciente sem medicação." "Alta" rfl (by decide) rfl rfl rfl rfl () rfl

/-- C8: when the `GEMINI_API_KEY` environment variable is unset,
`call_llm_api` catches its own `ValueError` and returns `None` instead of
raising — whatever the outcome of the external call would have been — and
the request then fails with the generic triage-failure 500, the store
untouched. -/
theorem no_api_key_triage_failure {σ : Type} (outcome : LlmOutcome)
    (store : List (String × JsonVal) → σ → Bool × σ) (st : σ)
    (data : List (String × JsonVal)) (msg : String)
    (hmsg : dict_get data "message" = JsonVal.str msg) (hne : msg ≠ "") :
    call_llm_api false outcome = JsonVal.null ∧
    process_chat_message (fun _ => call_llm_api false outcome) store
        (some (JsonVal.obj data)) st =
      ⟨HttpResult.json 500 [("error", JsonVal.str triage_failure_error)], 1, 0, st⟩ := by
  refine ⟨rfl, ?_⟩
  simp [process_chat_message, hmsg, call_llm_api, truthy, hne]

/-- C8 witness: concrete message, key unset, API outcome arbitrary (here a
successfully parsed record): still `None` and a 500 triage failure. -/
theorem no_api_key_triage_failure_witness :
    call_llm_api false (LlmOutcome.parsed (JsonVal.obj [("area_problema", JsonVal.str "Trabalhista"),
      ("fatos_chave", JsonVal.str "Demissão sem aviso."),
      ("urgencia", JsonVal.str "Média")])) = JsonVal.null ∧
    process_chat_message
        (fun _ => call_llm_api false (LlmOutcome.parsed (JsonVal.obj
          [("area_problema", JsonVal.str "Trabalhista"),
           ("fatos_chave", JsonVal.str "Demissão sem aviso."),
           ("urgencia", JsonVal.str "Média")])))
        (fun _ (s : Unit) => (true, s))
        (some (JsonVal.obj [("message", JsonVal.str "Fui demitido ontem")])) () =
      ⟨HttpResult.json 500 [("error", JsonVal.str triage_failure_error)], 1, 0, ()⟩ :=
  no_api_key_triage_failure _ _ _ _ "Fui demitido ontem" rfl (by decide)

/-- C6: whenever `persist_case_to_sql` reports success, reading the case
back by the fresh primary key yields a row whose `area_problema`,
`fatos_chave` and `urgencia` are exactly the record's fields, whose status
is `PENDENTE_ESPECIALISTA`, and whose id is newly assigned: it is the
auto-increment value, which named no row before the insert (given the
auto-increment invariant that every existing id is below the counter). -/
theorem persist_round_trip (e : Bool) (case_data : List (String × JsonVal)) (st : DBState)
    (hinv : ∀ r ∈ st.rows, r.id < st.nextId)
    (hok : (persist_case_to_sql e case_data st).1 = true) :
    ∃ row : Caso,
      read_case (persist_case_to_sql e case_data st).2 st.nextId = some row ∧
      row.area_problema = dict_get case_data "area_problema" ∧
      row.fatos_chave = dict_get case_data "fatos_chave" ∧
      row.urgencia = dict_get case_data "urgencia" ∧
      row.status = "PENDENTE_ESPECIALISTA" ∧
      row.id = st.nextId ∧
      read_case st st.nextId = none := by
  have hread0 : read_case st st.nextId = none := by
    rw [read_case, List.find?_eq_none]
    intro r hr
    simp [Nat.ne_of_lt (hinv r hr)]
  cases hg : (e || is_null (dict_get case_data "area_problema") ||
      is_null (dict_get case_data "fatos_chave") ||
      is_null (dict_get case_data "urgencia")) with
  | true =>
    exfalso
    simp [persist_case_to_sql, hg] at hok
  | false =>
    refine ⟨⟨st.nextId, dict_get case_data "area_problema",
      dict_get case_data "fatos_chave", dict_get case_data "urgencia",
      st.now, "PENDENTE_ESPECIALISTA"⟩, ?_, rfl, rfl, rfl, rfl, rfl, hread0⟩
    simp only [persist_case_to_sql, hg]
    rw [if_neg (by simp), read_case]
    rw [find?_append_of_forall_false]
    · simp
    · intro r hr
      simp [Nat.ne_of_lt (hinv r hr)]

/-- C6 witness: persisting a concrete well-formed record into a fresh
database and reading id 1 back. -/
theorem persist_round_trip_witness :
    ∃ row : Caso,
      read_case (persist_case_to_sql false rec_completo st0).2 st0.nextId = some row ∧
      row.area_problema = dict_get rec_completo "area_problema" ∧
      row.fatos_chave = dict_get rec_completo "fatos_chave" ∧
      row.urgencia = dict_get rec_completo "urgencia" ∧
      row.status = "PENDENTE_ESPECIALISTA" ∧
      row.id = st0.nextId ∧
      read_case st0 st0.nextId = none :=
  persist_round_trip false rec_completo st0 (by simp [st0]) rfl

/-- C7: on any storage-layer error during the insert — an external
`SQLAlchemyError` or the `IntegrityError` from a `NULL` in a
`nullable=False` column — `persist_case_to_sql` rolls the session back
(the state is returned unchanged) and reports `False`; being a total
function, it lets no exception escape the store boundary. -/
theorem persist_rollback_on_error (e : Bool) (case_data : List (String × JsonVal))
    (st : DBState)
    (herr : e = true ∨ is_null (dict_get case_data "area_problema") = true ∨
            is_null (dict_get case_data "fatos_chave") = true ∨
            is_null (dict_get case_data "urgencia") = true) :
    persist_case_to_sql e case_data st = (false, st) := by
  rcases herr with h | h | h | h <;> simp [persist_case_to_sql, h]

/-- C7 witness: an external storage error on a concrete well-formed record
leaves the fresh database unchanged and reports failure. -/
theorem persist_rollback_on_error_witness :
    persist_case_to_sql true rec_completo st0 = (false, st0) :=
  persist_rollback_on_error true rec_completo st0 (Or.inl rfl)

/-- C1 counterexample: the claim is false on the code. For the parsed LLM
response `rec_incompleto` — valid JSON missing the required
`area_problema` field — `call_llm_api` does not return `None`: it returns
the parsed object unvalidated, and the pipeline proceeds to persistence
(the store is invoked once) and answers with the storage-failure error,
not the triage-failure error. -/
theorem classifier_passes_missing_fields_cex :
    call_llm_api true (LlmOutcome.parsed (JsonVal.obj rec_incompleto)) ≠ JsonVal.null ∧
    (process_chat_message
        (fun _ => call_llm_api true (LlmOutcome.parsed (JsonVal.obj rec_incompleto)))
        (persist_case_to_sql false)
        (some (JsonVal.obj [("message", JsonVal.str "Ajuda com meu depósito")]))
        st0).storeCalls = 1 ∧
    (process_chat_message
        (fun _ => call_llm_api true (LlmOutcome.parsed (JsonVal.obj rec_incompleto)))
        (persist_case_to_sql false)
        (some (JsonVal.obj [("message", JsonVal.str "Ajuda com meu depósito")]))
        st0).resp = HttpResult.json 500 [("error", JsonVal.str storage_failure_error)] ∧
    (process_chat_message
        (fun _ => call_llm_api true (LlmOutcome.parsed (JsonVal.obj rec_incompleto)))
        (persist_case_to_sql false)
        (some (JsonVal.obj [("message", JsonVal.str "Ajuda com meu depósito")]))
        st0).resp ≠ HttpResult.json 500 [("error", JsonVal.str triage_failure_error)] := by
  refine ⟨?_, rfl, rfl, ?_⟩
  · intro h
    simp [call_llm_api, rec_incompleto] at h
  · intro h
    have h2 : HttpResult.json 500 [("error", JsonVal.str storage_failure_error)] =
        HttpResult.json 500 [("error", JsonVal.str triage_failure_error)] := by
      exact Eq.trans (by rfl) h
    simp [storage_failure_error, triage_failure_error] at h2

/-- C1 amended: the classifier applies no schema validation — a parsed
JSON object is returned as-is even when TriageRecord fields are missing.
The handler falls into the triage-failure branch only when the classifier
result is falsy: an empty parsed object yields the triage-failure 500 with
the store never invoked, while a non-empty object missing a required field
proceeds to persistence, where the `nullable=False` columns make the
insert fail, and the pipeline answers with the storage-failure 500, the
store invoked exactly once and the database unchanged. -/
theorem missing_fields_storage_failure (e : Bool) (st : DBState)
    (data pkvs : List (String × JsonVal)) (msg : String)
    (hmsg : dict_get data "message" = JsonVal.str msg) (hne : msg ≠ "")
    (hpk : pkvs ≠ [])
    (hmissing : is_null (dict_get pkvs "area_problema") = true ∨
                is_null (dict_get pkvs "fatos_chave") = true ∨
                is_null (dict_get pkvs "urgencia") = true) :
    call_llm_api true (LlmOutcome.parsed (JsonVal.obj pkvs)) = JsonVal.obj pkvs ∧
    process_chat_message
        (fun _ => call_llm_api true (LlmOutcome.parsed (JsonVal.obj pkvs)))
        (persist_case_to_sql e) (some (JsonVal.obj data)) st =
      ⟨HttpResult.json 500 [("error", JsonVal.str storage_failure_error)], 1, 1, st⟩ ∧
    process_chat_message
        (fun _ => call_llm_api true (LlmOutcome.parsed (JsonVal.obj [])))
        (persist_case_to_sql e) (some (JsonVal.obj data)) st =
      ⟨HttpResult.json 500 [("error", JsonVal.str triage_failure_error)], 1, 0, st⟩ := by
  have hpersist : persist_case_to_sql e pkvs st = (false, st) := by
    rcases hmissing with h | h | h <;> simp [persist_case_to_sql, h]
  refine ⟨rfl, ?_, ?_⟩
  · simp [process_chat_message, hmsg, call_llm_api, hpersist, truthy, hne, hpk]
  · simp [process_chat_message, hmsg, call_llm_api, truthy, hne]

/-- C1 amended witness: the concrete incomplete record from the
counterexample, against a fresh database. -/
theorem missing_fields_storage_failure_witness :
    call_llm_api true (LlmOutcome.parsed (JsonVal.obj rec_incompleto)) =
      JsonVal.obj rec_incompleto ∧
    process_chat_message
        (fun _ => call_llm_api true (LlmOutcome.parsed (JsonVal.obj rec_incompleto)))
        (persist_case_to_sql false)
        (some (JsonVal.obj [("message", JsonVal.str "Ajuda")])) st0 =
      ⟨HttpResult.json 500 [("error", JsonVal.str storage_failure_error)], 1, 1, st0⟩ ∧
    process_chat_message
        (fun _ => call_llm_api true (LlmOutcome.parsed (JsonVal.obj [])))
        (persist_case_to_sql false)
        (some (JsonVal.obj [("message", JsonVal.str "Ajuda")])) st0 =
      ⟨HttpResult.json 500 [("error", JsonVal.str triage_failure_error)], 1, 0, st0⟩ :=
  missing_fields_storage_failure false st0 [("message", JsonVal.str "Ajuda")]
    rec_incompleto "Ajuda" rfl (by decide) (by simp [rec_incompleto]) (Or.inl rfl)

end TriageApp
